import Mathlib

/-!
Shallow embedding of `src/core/collage.py` (collage composition module).

Conventions of the embedding:
* Python `int` is modelled by `Int`; Python floor division `//` is `Int.fdiv`
  (they agree on all integers).
* Python real division followed by `int(...)` truncation on positive values is
  modelled exactly over the rationals: `int(a / b)` for positive `a`, `b`
  becomes `(a).fdiv b` after cross-multiplying, and a float comparison
  `a / b > c / d` with positive denominators becomes `a * d > c * b`.
* A Python `str` caption is modelled as `List Char`; `not caption` is
  `caption = []` and `caption.startswith "["` is `caption.head? = some openBracketChar`.
* A PIL image is modelled as its pixel dimensions together with a term
  recording how its contents were constructed (`ImageData`); PIL operations
  (`resize`, `crop`, `paste`, `Image.new`, caption drawing) build that term.
  `crop (l, t, r, b)` returns an image of size `(r - l, b - t)`, exactly as PIL
  does (boxes reaching outside the source are padded, never clamped).
* The text-width measure `draw.textbbox` depends on the font; it is taken as
  an arbitrary function `List Char → Int`, so theorems hold for every font.
-/

/-- RGB color triple. -/
abbrev RGB := Int × Int × Int

/-- Enum `AnchorPosition` from `collage.py`. -/
inductive AnchorPosition where
  | TOP_LEFT
  | TOP_RIGHT
  | BOTTOM_LEFT
  | BOTTOM_RIGHT
  | CENTER_LEFT
  | CENTER_RIGHT
  | CENTER
  deriving DecidableEq, Repr

/-- Enum `LayoutType` from `collage.py`. -/
inductive LayoutType where
  | GRID_2X2
  | GRID_3X3
  | GRID_2X3
  | GRID_3X2
  | ROW_1X3
  | ROW_1X4
  | COLUMN_3X1
  | COLUMN_4X1
  | FEATURED
  deriving DecidableEq, Repr

/-- Dataclass `LayoutConfig` from `collage.py` (source defaults: 2x2 layout,
top-left anchor, padding 4, border width 2, white border, dark background,
1080x1080 output, captions off, font size 14, white caption, opacity 180). -/
structure LayoutConfig where
  layout_type : LayoutType
  anchor_position : AnchorPosition
  padding : Int
  border_width : Int
  border_color : RGB
  background_color : RGB
  output_size : Int × Int
  show_captions : Bool
  caption_font_size : Int
  caption_color : RGB
  caption_bg_opacity : Int
  deriving DecidableEq, Repr

/-- Construction record of a PIL image's pixel contents. -/
inductive ImageData where
  | source (id : Nat)
  | fill (color : RGB)
  | resizeOp (d : ImageData) (w h : Int)
  | cropOp (d : ImageData) (l t r b : Int)
  | captionOp (d : ImageData) (caption : List Char) (fontSize : Int)
      (color : RGB) (opacity : Int)
  | pasteOp (base : ImageData) (overlay : ImageData) (x y : Int)
  deriving DecidableEq, Repr

/-- A PIL image: its dimensions plus the record of its contents. -/
structure PILImage where
  width : Int
  height : Int
  data : ImageData
  deriving DecidableEq, Repr

/-- `image.resize((w, h))`: new image of exactly the requested size. -/
def PILImage.resize (image : PILImage) (size : Int × Int) : PILImage :=
  ⟨size.1, size.2, ImageData.resizeOp image.data size.1 size.2⟩

/-- `image.crop((l, t, r, b))`: PIL returns an image of size `(r - l, b - t)`. -/
def PILImage.crop (image : PILImage) (box : Int × Int × Int × Int) : PILImage :=
  ⟨box.2.2.1 - box.1, box.2.2.2 - box.2.1,
    ImageData.cropOp image.data box.1 box.2.1 box.2.2.1 box.2.2.2⟩

/-- `Image.new(mode, size, color)`. -/
def imageNew (size : Int × Int) (color : RGB) : PILImage :=
  ⟨size.1, size.2, ImageData.fill color⟩

/-- `base.paste(overlay, (x, y))`: contents change, dimensions do not. -/
def PILImage.paste (base : PILImage) (overlay : PILImage) (xy : Int × Int) :
    PILImage :=
  ⟨base.width, base.height, ImageData.pasteOp base.data overlay.data xy.1 xy.2⟩

/-- `get_layout_grid`: grid dimensions `(rows, cols)` for a layout type.
The source is a dict lookup with default `(2, 2)`; every member is present,
and `FEATURED` maps to `(2, 2)`. -/
def get_layout_grid (layout_type : LayoutType) : Nat × Nat :=
  match layout_type with
  | LayoutType.GRID_2X2 => (2, 2)
  | LayoutType.GRID_3X3 => (3, 3)
  | LayoutType.GRID_2X3 => (2, 3)
  | LayoutType.GRID_3X2 => (3, 2)
  | LayoutType.ROW_1X3 => (1, 3)
  | LayoutType.ROW_1X4 => (1, 4)
  | LayoutType.COLUMN_3X1 => (3, 1)
  | LayoutType.COLUMN_4X1 => (4, 1)
  | LayoutType.FEATURED => (2, 2)

/-- `get_panel_count`: total number of cells (anchor included). -/
def get_panel_count (layout_type : LayoutType) : Nat :=
  (get_layout_grid layout_type).1 * (get_layout_grid layout_type).2

/-- `get_anchor_grid_position`: anchor position enum to `(row, col)`.
The source is a dict lookup with default `(0, 0)`; every member is present.
`rows // 2` and `cols // 2` are Python floor division, which on the
nonnegative `rows`, `cols` is `Nat` division. -/
def get_anchor_grid_position (anchor_position : AnchorPosition)
    (rows cols : Nat) : Nat × Nat :=
  match anchor_position with
  | AnchorPosition.TOP_LEFT => (0, 0)
  | AnchorPosition.TOP_RIGHT => (0, cols - 1)
  | AnchorPosition.BOTTOM_LEFT => (rows - 1, 0)
  | AnchorPosition.BOTTOM_RIGHT => (rows - 1, cols - 1)
  | AnchorPosition.CENTER_LEFT => (rows / 2, 0)
  | AnchorPosition.CENTER_RIGHT => (rows / 2, cols - 1)
  | AnchorPosition.CENTER => (rows / 2, cols / 2)

/-- `calculate_cell_size`: per-cell pixel size from canvas size, grid shape
and padding, with Python floor division (`Int.fdiv`). -/
def calculate_cell_size (output_size : Int × Int) (rows cols : Nat)
    (padding : Int) : Int × Int :=
  let total_padding_x := padding * ((cols : Int) + 1)
  let total_padding_y := padding * ((rows : Int) + 1)
  ((output_size.1 - total_padding_x).fdiv (cols : Int),
   (output_size.2 - total_padding_y).fdiv (rows : Int))

/-- `get_cell_position`: top-left pixel of a cell. -/
def get_cell_position (row col : Nat) (cell_size : Int × Int)
    (padding : Int) : Int × Int :=
  (padding + (col : Int) * (cell_size.1 + padding),
   padding + (row : Int) * (cell_size.2 + padding))

/-- The scaled (pre-crop) dimensions computed inside `resize_image_to_cell`:
`img_aspect > cell_aspect` is `w / h > tw / th`, cross-multiplied; the `int()`
truncations of the positive products are exact-arithmetic floors. -/
def scaled_size (w h tw th : Int) : Int × Int :=
  if w * th > tw * h then ((th * w).fdiv h, th)
  else (tw, (tw * h).fdiv w)

/-- `resize_image_to_cell`: resize preserving aspect, then center crop to
`cellSize - 2*borderWidth` on each axis. -/
def resize_image_to_cell (image : PILImage) (cell_size : Int × Int)
    (border_width : Int) : PILImage :=
  let target_width := cell_size.1 - 2 * border_width
  let target_height := cell_size.2 - 2 * border_width
  let nwh := scaled_size image.width image.height target_width target_height
  let resized := image.resize nwh
  let left := (nwh.1 - target_width).fdiv 2
  let top := (nwh.2 - target_height).fdiv 2
  resized.crop (left, top, left + target_width, top + target_height)

/-- The opening square bracket character, the reserved caption prefix. -/
def openBracketChar : Char := '['

/-- The truncation loop of `add_caption_to_image`: while the rendered width
exceeds `maxWidth` and more than 10 characters remain, drop the last 4
characters (`caption[:-4]`) and append three dots. `textWidth` stands for
`draw.textbbox`'s width for the current font. -/
def truncate_caption (textWidth : List Char → Int) (maxWidth : Int)
    (caption : List Char) : List Char :=
  if _h : textWidth caption > maxWidth ∧ caption.length > 10 then
    truncate_caption textWidth maxWidth
      (caption.take (caption.length - 4) ++ ['.', '.', '.'])
  else caption
termination_by caption.length
decreasing_by
  simp only [List.length_append, List.length_take, List.length_cons,
    List.length_nil]
  omega

/-- `add_caption_to_image`: no-op when the caption is empty or starts with
the reserved bracket prefix; otherwise truncate to fit `image.width - 20` and
draw the band and text (recorded as a `captionOp` on the same dimensions). -/
def add_caption_to_image (textWidth : List Char → Int) (image : PILImage)
    (caption : List Char) (font_size : Int) (text_color : RGB)
    (bg_opacity : Int) : PILImage :=
  if caption = [] ∨ caption.head? = some openBracketChar then image
  else
    let max_width := image.width - 20
    let final_caption := truncate_caption textWidth max_width caption
    ⟨image.width, image.height,
      ImageData.captionOp image.data final_caption font_size text_color
        bg_opacity⟩

/-- `get_required_panel_count`: cells minus one for the anchor. -/
def get_required_panel_count (layout_type : LayoutType) : Nat :=
  get_panel_count layout_type - 1

/-- `suggest_layout`: layout from the number of thoughts. -/
def suggest_layout (num_thoughts : Nat) : LayoutType :=
  if num_thoughts ≤ 1 then LayoutType.GRID_2X2
  else if num_thoughts ≤ 2 then LayoutType.ROW_1X3
  else if num_thoughts ≤ 3 then LayoutType.GRID_2X2
  else if num_thoughts ≤ 5 then LayoutType.GRID_2X3
  else if num_thoughts ≤ 8 then LayoutType.GRID_3X3
  else LayoutType.GRID_3X3

/-- What `compose_collage` puts in one grid cell: the anchor image, the
panel at a given index, or an empty background-colored cell. -/
inductive CellContent where
  | anchorCell
  | panelCell (idx : Nat)
  | emptyCell
  deriving DecidableEq, Repr

/-- The cells `(row, col)` visited by `compose_collage`'s nested loops, in
row-major order (row outer, col inner). -/
def grid_cells (rows cols : Nat) : List (Nat × Nat) :=
  (List.range rows).flatMap (fun r => (List.range cols).map (fun c => (r, c)))

/-- The body of `compose_collage`'s nested loops, restricted to deciding
which source fills each cell: the anchor cell gets the anchor image; any
other cell consumes the next unconsumed panel (`panel_index`) while panels
remain, and is empty afterwards. -/
def assign_loop (anchor_row anchor_col num_panels : Nat) :
    List (Nat × Nat) → Nat → List ((Nat × Nat) × CellContent)
  | [], _ => []
  | rc :: rest, panel_index =>
    if rc.1 = anchor_row ∧ rc.2 = anchor_col then
      (rc, CellContent.anchorCell) ::
        assign_loop anchor_row anchor_col num_panels rest panel_index
    else if panel_index < num_panels then
      (rc, CellContent.panelCell panel_index) ::
        assign_loop anchor_row anchor_col num_panels rest (panel_index + 1)
    else
      (rc, CellContent.emptyCell) ::
        assign_loop anchor_row anchor_col num_panels rest panel_index

/-- Cell-content assignment of `compose_collage`: the nested loops over the
grid with `panel_index` starting at 0. -/
def assign_cells (anchor_row anchor_col rows cols num_panels : Nat) :
    List ((Nat × Nat) × CellContent) :=
  assign_loop anchor_row anchor_col num_panels (grid_cells rows cols) 0

/-- The anchor cell's caption in `compose_collage`:
`"[Tal]" if config.show_captions else ""`. -/
def anchor_cell_caption (show_captions : Bool) : List Char :=
  if show_captions then ['[', 'T', 'a', 'l', ']'] else []

/-- A panel cell's caption in `compose_collage`:
`thoughts[panel_index] if panel_index < len(thoughts) else ""`. -/
def panel_caption (thoughts : List (List Char)) (panel_index : Nat) :
    List Char :=
  (thoughts.get? panel_index).getD []

/-- The caption step of `compose_collage`'s loop body:
`if config.show_captions and caption:` apply `add_caption_to_image`. -/
def apply_caption_step (textWidth : List Char → Int) (config : LayoutConfig)
    (cell_image : PILImage) (caption : List Char) : PILImage :=
  if config.show_captions ∧ caption ≠ [] then
    add_caption_to_image textWidth cell_image caption
      config.caption_font_size config.caption_color config.caption_bg_opacity
  else cell_image

/-- The border step of `compose_collage`'s loop body: when
`config.border_width > 0`, allocate a `cell_size` image filled with the
border color and paste the cell image at `(border_width, border_width)`. -/
def apply_border_step (config : LayoutConfig) (cell_image : PILImage)
    (cell_size : Int × Int) : PILImage :=
  if config.border_width > 0 then
    (imageNew cell_size config.border_color).paste cell_image
      (config.border_width, config.border_width)
  else cell_image

/-- Image and caption for one cell content, as built in
`compose_collage`'s loop body. The `(panels.get? i).getD` lookup is total
here because `assign_cells` only emits `panelCell i` with `i` below
`panels.length`. -/
def cell_image_and_caption (anchor_image : PILImage)
    (panels : List PILImage) (thoughts : List (List Char))
    (config : LayoutConfig) (cell_size : Int × Int) :
    CellContent → PILImage × List Char
  | CellContent.anchorCell =>
    (resize_image_to_cell anchor_image cell_size config.border_width,
     anchor_cell_caption config.show_captions)
  | CellContent.panelCell i =>
    (resize_image_to_cell ((panels.get? i).getD anchor_image) cell_size
       config.border_width,
     panel_caption thoughts i)
  | CellContent.emptyCell =>
    (imageNew (cell_size.1 - 2 * config.border_width,
               cell_size.2 - 2 * config.border_width)
       config.background_color,
     [])

/-- `compose_collage`: create the base canvas, compute the shared cell size,
then for each grid cell in row-major order build its image (anchor, panel,
or empty), apply the caption and border steps, and paste it at its cell
origin. -/
def compose_collage (textWidth : List Char → Int) (anchor_image : PILImage)
    (panels : List PILImage) (thoughts : List (List Char))
    (config : LayoutConfig) : PILImage :=
  let rc := get_layout_grid config.layout_type
  let anchor_rc := get_anchor_grid_position config.anchor_position rc.1 rc.2
  let collage := imageNew config.output_size config.background_color
  let cell_size := calculate_cell_size config.output_size rc.1 rc.2
    config.padding
  let cells := assign_cells anchor_rc.1 anchor_rc.2 rc.1 rc.2 panels.length
  cells.foldl (fun acc entry =>
    let xy := get_cell_position entry.1.1 entry.1.2 cell_size config.padding
    let ic := cell_image_and_caption anchor_image panels thoughts config
      cell_size entry.2
    let withCaption := apply_caption_step textWidth config ic.1 ic.2
    let withBorder := apply_border_step config withCaption cell_size
    acc.paste withBorder xy) collage

/-! ## Helper lemmas about Python floor division -/

/-- The divisor times a floor quotient stays at or below the dividend. -/
theorem fdiv_mul_le_self (n d : Int) (hd : 0 < d) : d * n.fdiv d ≤ n := by
  rw [Int.fdiv_eq_ediv n hd.le]
  have h1 := Int.ediv_add_emod n d
  have h2 := Int.emod_nonneg n (ne_of_gt hd)
  linarith

/-- The dividend is below the divisor times the floor quotient plus one. -/
theorem self_lt_fdiv_succ_mul (n d : Int) (hd : 0 < d) :
    n < d * (n.fdiv d + 1) := by
  have h := Int.lt_fdiv_add_one_mul_self n hd
  linarith [mul_comm (n.fdiv d + 1) d]

/-! ## Claim theorems -/

/-- Claim C1: for every source image with positive width and height and every
cell size and border width whose target dimensions
`cellSize - 2*borderWidth` are positive, `resize_image_to_cell` returns an
image of exactly the target dimensions, regardless of the source's aspect
ratio (the final center crop always cuts a box of exactly the target size). -/
theorem resize_image_to_cell_exact_dims (image : PILImage)
    (cell_size : Int × Int) (border_width : Int)
    (hw : 0 < image.width) (hh : 0 < image.height)
    (htw : 0 < cell_size.1 - 2 * border_width)
    (hth : 0 < cell_size.2 - 2 * border_width) :
    (resize_image_to_cell image cell_size border_width).width
        = cell_size.1 - 2 * border_width ∧
    (resize_image_to_cell image cell_size border_width).height
        = cell_size.2 - 2 * border_width := by
  unfold resize_image_to_cell PILImage.crop PILImage.resize
  constructor <;> simp

/-- Witness for C1 at a 3x7 source, cell (10, 12), border width 1. -/
theorem resize_image_to_cell_exact_dims_witness :
    (resize_image_to_cell ⟨3, 7, ImageData.source 0⟩ (10, 12) 1).width
        = (10 : Int) - 2 * 1 ∧
    (resize_image_to_cell ⟨3, 7, ImageData.source 0⟩ (10, 12) 1).height
        = (12 : Int) - 2 * 1 :=
  resize_image_to_cell_exact_dims ⟨3, 7, ImageData.source 0⟩ (10, 12) 1
    (by decide) (by decide) (by decide) (by decide)

/-- Claim C7: `add_caption_to_image` is the identity (returns its input
image unchanged) whenever the caption is empty or starts with the reserved
bracket character, for every image, width measure, font size, color and
opacity. -/
theorem add_caption_to_image_noop (textWidth : List Char → Int)
    (image : PILImage) (caption : List Char) (font_size : Int)
    (text_color : RGB) (bg_opacity : Int)
    (h : caption = [] ∨ caption.head? = some openBracketChar) :
    add_caption_to_image textWidth image caption font_size text_color
      bg_opacity = image := by
  unfold add_caption_to_image
  rw [if_pos h]

/-- Witness for C7 at the caption `"[x"` on a 50x40 source image. -/
theorem add_caption_to_image_noop_witness :
    (['[', 'x'] = ([] : List Char) ∨
        (['[', 'x'] : List Char).head? = some openBracketChar) ∧
    add_caption_to_image (fun c => (c.length : Int))
      ⟨50, 40, ImageData.source 3⟩ ['[', 'x'] 14 (255, 255, 255) 180
      = ⟨50, 40, ImageData.source 3⟩ :=
  ⟨Or.inr rfl,
   add_caption_to_image_noop (fun c => (c.length : Int))
     ⟨50, 40, ImageData.source 3⟩ ['[', 'x'] 14 (255, 255, 255) 180
     (Or.inr rfl)⟩

/-- Claim C8: the caption truncation loop terminates on every caption and
every width measure (`truncate_caption` is total, each pass replacing the
last 4 characters by 3 dots), and its result is never longer than the
original caption; a 10-character caption is returned untouched since the
loop requires strictly more than 10 characters. -/
theorem truncate_caption_length_le (textWidth : List Char → Int)
    (maxWidth : Int) (caption : List Char) :
    (truncate_caption textWidth maxWidth caption).length ≤ caption.length := by
  generalize hn : caption.length = n
  induction n using Nat.strong_induction_on generalizing caption with
  | _ n ih =>
    rw [truncate_caption]
    split
    · next hcond =>
      have hlen : (caption.take (caption.length - 4) ++
          ['.', '.', '.']).length = caption.length - 1 := by
        simp only [List.length_append, List.length_take, List.length_cons,
          List.length_nil]
        omega
      have := ih (caption.length - 1) (by omega) _ hlen
      omega
    · omega

/-- Claim C2: `compose_collage` with the 2x2 layout, anchor at top-left and
exactly 3 panels resolves a 2x2 grid with anchor cell (0, 0) and assigns
panel 0 to cell (0, 1), panel 1 to (1, 0) and panel 2 to (1, 1): the panels
are consumed in order along the row-major grid walk, and each panel's
caption is the caption list entry of the same index (empty when the caption
list is shorter). -/
theorem compose_2x2_top_left_three_panels :
    get_layout_grid LayoutType.GRID_2X2 = (2, 2) ∧
    get_anchor_grid_position AnchorPosition.TOP_LEFT 2 2 = (0, 0) ∧
    assign_cells 0 0 2 2 3 =
      [((0, 0), CellContent.anchorCell),
       ((0, 1), CellContent.panelCell 0),
       ((1, 0), CellContent.panelCell 1),
       ((1, 1), CellContent.panelCell 2)] ∧
    ∀ (t0 t1 : List Char),
      panel_caption [t0, t1] 0 = t0 ∧
      panel_caption [t0, t1] 1 = t1 ∧
      panel_caption [t0, t1] 2 = [] := by
  refine ⟨rfl, rfl, by decide, ?_⟩
  intro t0 t1
  exact ⟨rfl, rfl, rfl⟩

/-- Counterexample to claim C3: the staircase of `suggest_layout` is not
minimal and not monotonic. One thought maps to the 2x2 grid whose capacity
`get_required_panel_count` is 3, although the supported `ROW_1X3` layout has
capacity 2 ≥ 1; and two thoughts map to `ROW_1X3` with capacity 2, so the
larger thought count 2 gets a strictly smaller capacity than thought
count 1. -/
theorem suggest_layout_not_minimal_at_one :
    get_required_panel_count (suggest_layout 2)
        < get_required_panel_count (suggest_layout 1) ∧
    1 ≤ get_required_panel_count LayoutType.ROW_1X3 ∧
    get_required_panel_count LayoutType.ROW_1X3
        < get_required_panel_count (suggest_layout 1) := by
  decide

/-- Claim C3 as amended: `suggest_layout` always returns a layout whose
non-anchor capacity `get_required_panel_count` is at least
`min num_thoughts 8` — enough panels for up to 8 thoughts and capped at the
3x3 grid (capacity 8) beyond that — but it is neither the smallest such
layout nor monotonic in the thought count. -/
theorem suggest_layout_capacity_sufficient (num_thoughts : Nat) :
    min num_thoughts 8
        ≤ get_required_panel_count (suggest_layout num_thoughts) ∧
    (9 ≤ num_thoughts → suggest_layout num_thoughts = LayoutType.GRID_3X3) := by
  have c22 : get_required_panel_count LayoutType.GRID_2X2 = 3 := rfl
  have c13 : get_required_panel_count LayoutType.ROW_1X3 = 2 := rfl
  have c23 : get_required_panel_count LayoutType.GRID_2X3 = 5 := rfl
  have c33 : get_required_panel_count LayoutType.GRID_3X3 = 8 := rfl
  unfold suggest_layout
  split_ifs with h1 h2 h3 h4 h5
  · exact ⟨by rw [c22]; omega, fun h9 => absurd h9 (by omega)⟩
  · exact ⟨by rw [c13]; omega, fun h9 => absurd h9 (by omega)⟩
  · exact ⟨by rw [c22]; omega, fun h9 => absurd h9 (by omega)⟩
  · exact ⟨by rw [c23]; omega, fun h9 => absurd h9 (by omega)⟩
  · exact ⟨by rw [c33]; omega, fun h9 => absurd h9 (by omega)⟩
  · exact ⟨by rw [c33]; omega, fun _ => rfl⟩

/-- Witness for C3's amended theorem at 9 thoughts. -/
theorem suggest_layout_capacity_sufficient_witness :
    min 9 8 ≤ get_required_panel_count (suggest_layout 9) ∧
    (9 ≤ 9 → suggest_layout 9 = LayoutType.GRID_3X3) :=
  suggest_layout_capacity_sufficient 9

/-- Counterexample to claim C5: on the 2x2 grid (even rows and columns) the
central cells are rows 0..1 x cols 0..1, whose top-left member is
`(2 / 2 - 1, 2 / 2 - 1) = (0, 0)`; `get_anchor_grid_position` resolves
`CENTER` to `(1, 1)` instead — the bottom-right of the central cells, not
the top-left. -/
theorem center_anchor_2x2_not_top_left_of_center :
    get_anchor_grid_position AnchorPosition.CENTER 2 2 = (1, 1) ∧
    get_anchor_grid_position AnchorPosition.CENTER 2 2 ≠ (2 / 2 - 1, 2 / 2 - 1) := by
  decide

/-- Claim C5 as amended: for every grid with `rows, cols ≥ 1`,
`get_anchor_grid_position` resolves `CENTER` to `(rows / 2, cols / 2)` by
floor division, and on an even axis the resolved index `n / 2` satisfies
`2 * (n / 2) = n`, i.e. it is the bottom/right member of the two central
cells `n / 2 - 1` and `n / 2` (the top/left member would satisfy
`2 * i = n - 2`): the bias is toward the bottom-right-of-center. -/
theorem center_anchor_floor_division (rows cols : Nat)
    (hr : 1 ≤ rows) (hc : 1 ≤ cols) :
    get_anchor_grid_position AnchorPosition.CENTER rows cols
        = (rows / 2, cols / 2) ∧
    (rows % 2 = 0 →
      2 * (get_anchor_grid_position AnchorPosition.CENTER rows cols).1 = rows) ∧
    (cols % 2 = 0 →
      2 * (get_anchor_grid_position AnchorPosition.CENTER rows cols).2 = cols) := by
  refine ⟨rfl, fun h => ?_, fun h => ?_⟩ <;>
    simp only [get_anchor_grid_position] <;> omega

/-- Witness for C5's amended theorem on the 4x2 grid. -/
theorem center_anchor_floor_division_witness :
    get_anchor_grid_position AnchorPosition.CENTER 4 2 = (4 / 2, 2 / 2) ∧
    (4 % 2 = 0 →
      2 * (get_anchor_grid_position AnchorPosition.CENTER 4 2).1 = 4) ∧
    (2 % 2 = 0 →
      2 * (get_anchor_grid_position AnchorPosition.CENTER 4 2).2 = 2) :=
  center_anchor_floor_division 4 2 (by decide) (by decide)

/-- Counterexample to claim C4: with captions enabled, the anchor cell's
caption is the placeholder `"[Tal]"`, which starts with the reserved bracket
character, so `add_caption_to_image` returns the anchor cell image
unchanged — no caption band is ever rendered onto the anchor cell,
contradicting the claim that enabling captions renders a visible anchor
label. Shown on a concrete 100x100 anchor cell image with the source's
default configuration values and captions switched on. -/
theorem anchor_caption_not_rendered_when_enabled :
    anchor_cell_caption true = ['[', 'T', 'a', 'l', ']'] ∧
    apply_caption_step (fun c => (c.length : Int))
      { layout_type := LayoutType.GRID_2X2,
        anchor_position := AnchorPosition.TOP_LEFT,
        padding := 4, border_width := 2,
        border_color := (255, 255, 255), background_color := (30, 30, 30),
        output_size := (1080, 1080), show_captions := true,
        caption_font_size := 14, caption_color := (255, 255, 255),
        caption_bg_opacity := 180 }
      ⟨100, 100, ImageData.source 0⟩ (anchor_cell_caption true)
      = ⟨100, 100, ImageData.source 0⟩ := by
  constructor
  · rfl
  · decide

/-- Claim C4 as amended: the anchor cell never receives a caption band. When
captions are disabled the anchor caption is the empty string and the caption
step skips it; when captions are enabled the anchor caption is the reserved
placeholder `"[Tal]"`, which `add_caption_to_image` refuses to render
because of its leading bracket. In both cases the caption step of
`compose_collage` leaves the anchor cell image unchanged, for every width
measure and configuration. -/
theorem anchor_caption_never_rendered (textWidth : List Char → Int)
    (config : LayoutConfig) (cell_image : PILImage) :
    apply_caption_step textWidth config cell_image
      (anchor_cell_caption config.show_captions) = cell_image ∧
    (config.show_captions = false → anchor_cell_caption config.show_captions = []) := by
  unfold apply_caption_step anchor_cell_caption add_caption_to_image
  cases h : config.show_captions <;>
    simp [openBracketChar]

/-- Counterexample to claim C9: the scaled (pre-crop) intermediate image of
`resize_image_to_cell` does not keep the source aspect ratio exactly. A 3x7
source fitted into a 10x10 target is scaled to 10x23 (the `int()` truncation
of 70/3 drops a third of a pixel), and 10 * 7 is not equal to 3 * 23, so the
scaled width-to-height ratio differs from the source's. -/
theorem scaled_size_aspect_not_exact :
    scaled_size 3 7 10 10 = (10, 23) ∧
    (10 : Int) * 7 ≠ 3 * 23 ∧
    (resize_image_to_cell ⟨3, 7, ImageData.source 0⟩ (10, 10) 0).data
      = ImageData.cropOp (ImageData.resizeOp (ImageData.source 0) 10 23)
          0 6 10 16 := by
  refine ⟨by decide, by decide, by decide⟩

/-- Claim C9 as amended: `resize_image_to_cell` applies the same scale
factor to both axes up to a single floor rounding: one axis of the scaled
(pre-crop) size is exactly the corresponding target dimension, and the
other is the floor of the aspect-preserving value, so the scaled aspect
ratio matches the source's within one unit of the rounded dimension rather
than exactly. -/
theorem scaled_size_aspect_floor (w h tw th : Int)
    (hw : 0 < w) (hh : 0 < h) (htw : 0 < tw) (hth : 0 < th) :
    ((scaled_size w h tw th).2 = th ∧
      h * (scaled_size w h tw th).1 ≤ w * th ∧
      w * th < h * ((scaled_size w h tw th).1 + 1)) ∨
    ((scaled_size w h tw th).1 = tw ∧
      w * (scaled_size w h tw th).2 ≤ h * tw ∧
      h * tw < w * ((scaled_size w h tw th).2 + 1)) := by
  unfold scaled_size
  split
  · left
    refine ⟨rfl, ?_, ?_⟩
    · have h1 := fdiv_mul_le_self (th * w) h hh
      simp only
      linarith [mul_comm th w]
    · have h2 := self_lt_fdiv_succ_mul (th * w) h hh
      simp only
      linarith [mul_comm th w]
  · right
    refine ⟨rfl, ?_, ?_⟩
    · have h1 := fdiv_mul_le_self (tw * h) w hw
      simp only
      linarith [mul_comm tw h]
    · have h2 := self_lt_fdiv_succ_mul (tw * h) w hw
      simp only
      linarith [mul_comm tw h]

/-- Witness for C9's amended theorem at the 3x7 source and 10x10 target. -/
theorem scaled_size_aspect_floor_witness :
    ((scaled_size 3 7 10 10).2 = 10 ∧
      (7 : Int) * (scaled_size 3 7 10 10).1 ≤ 3 * 10 ∧
      (3 : Int) * 10 < 7 * ((scaled_size 3 7 10 10).1 + 1)) ∨
    ((scaled_size 3 7 10 10).1 = 10 ∧
      (3 : Int) * (scaled_size 3 7 10 10).2 ≤ 7 * 10 ∧
      (7 : Int) * 10 < 3 * ((scaled_size 3 7 10 10).2 + 1)) :=
  scaled_size_aspect_floor 3 7 10 10 (by decide) (by decide) (by decide)
    (by decide)

/-- Claim C6: the grid never overflows the canvas. For every canvas size,
`rows, cols ≥ 1` and `padding ≥ 0` (with positive computed cell
dimensions), `cols * cellWidth + (cols + 1) * padding` stays within the
canvas width and `rows * cellHeight + (rows + 1) * padding` within the
canvas height, where the cell size comes from `calculate_cell_size`;
equivalently the last cell's origin from `get_cell_position` plus the cell
size stays inside the canvas on both axes. -/
theorem grid_never_overflows_canvas (output_size : Int × Int)
    (rows cols : Nat) (padding : Int) (hr : 1 ≤ rows) (hc : 1 ≤ cols)
    (hp : 0 ≤ padding)
    (hw : 0 < (calculate_cell_size output_size rows cols padding).1)
    (hh : 0 < (calculate_cell_size output_size rows cols padding).2) :
    (cols : Int) * (calculate_cell_size output_size rows cols padding).1
        + ((cols : Int) + 1) * padding ≤ output_size.1 ∧
    (rows : Int) * (calculate_cell_size output_size rows cols padding).2
        + ((rows : Int) + 1) * padding ≤ output_size.2 ∧
    (get_cell_position (rows - 1) (cols - 1)
        (calculate_cell_size output_size rows cols padding) padding).1
        + (calculate_cell_size output_size rows cols padding).1
      ≤ output_size.1 ∧
    (get_cell_position (rows - 1) (cols - 1)
        (calculate_cell_size output_size rows cols padding) padding).2
        + (calculate_cell_size output_size rows cols padding).2
      ≤ output_size.2 := by
  have hcz : (0 : Int) < (cols : Int) := by exact_mod_cast hc
  have hrz : (0 : Int) < (rows : Int) := by exact_mod_cast hr
  have h1 : (cols : Int) * (calculate_cell_size output_size rows cols padding).1
      ≤ output_size.1 - padding * ((cols : Int) + 1) :=
    fdiv_mul_le_self (output_size.1 - padding * ((cols : Int) + 1)) (cols : Int)
      hcz
  have h2 : (rows : Int) * (calculate_cell_size output_size rows cols padding).2
      ≤ output_size.2 - padding * ((rows : Int) + 1) :=
    fdiv_mul_le_self (output_size.2 - padding * ((rows : Int) + 1)) (rows : Int)
      hrz
  have hcc : ((cols - 1 : Nat) : Int) = (cols : Int) - 1 := by omega
  have hrc : ((rows - 1 : Nat) : Int) = (rows : Int) - 1 := by omega
  have e1 : (get_cell_position (rows - 1) (cols - 1)
      (calculate_cell_size output_size rows cols padding) padding).1
      = padding + ((cols : Int) - 1)
          * ((calculate_cell_size output_size rows cols padding).1 + padding) := by
    simp [get_cell_position, hcc]
  have e2 : (get_cell_position (rows - 1) (cols - 1)
      (calculate_cell_size output_size rows cols padding) padding).2
      = padding + ((rows : Int) - 1)
          * ((calculate_cell_size output_size rows cols padding).2 + padding) := by
    simp [get_cell_position, hrc]
  refine ⟨by nlinarith, by nlinarith, ?_, ?_⟩
  · rw [e1]; nlinarith
  · rw [e2]; nlinarith

/-- Witness for C6 at the source defaults: 1080x1080 canvas, 2x2 grid,
padding 4 (cell size 534x534). -/
theorem grid_never_overflows_canvas_witness :
    ((2 : Nat) : Int) * (calculate_cell_size (1080, 1080) 2 2 4).1
        + (((2 : Nat) : Int) + 1) * 4 ≤ (1080, 1080).1 ∧
    ((2 : Nat) : Int) * (calculate_cell_size (1080, 1080) 2 2 4).2
        + (((2 : Nat) : Int) + 1) * 4 ≤ (1080, 1080).2 ∧
    (get_cell_position (2 - 1) (2 - 1)
        (calculate_cell_size (1080, 1080) 2 2 4) 4).1
        + (calculate_cell_size (1080, 1080) 2 2 4).1 ≤ (1080, 1080).1 ∧
    (get_cell_position (2 - 1) (2 - 1)
        (calculate_cell_size (1080, 1080) 2 2 4) 4).2
        + (calculate_cell_size (1080, 1080) 2 2 4).2 ≤ (1080, 1080).2 :=
  grid_never_overflows_canvas (1080, 1080) 2 2 4 (by decide) (by decide)
    (by decide) (by decide) (by decide)

/-- The cell-content assignment marks a cell as the anchor cell exactly when
its coordinates equal the anchor coordinates, so the number of anchor cells
it emits is the number of occurrences of the anchor coordinates in the
walked cell list, whatever the panel budget and starting panel index. -/
theorem assign_loop_countP (anchor_row anchor_col num_panels : Nat) :
    ∀ (cells : List (Nat × Nat)) (panel_index : Nat),
      List.countP (fun e => decide (e.2 = CellContent.anchorCell))
          (assign_loop anchor_row anchor_col num_panels cells panel_index)
        = List.countP (fun rc => decide (rc = (anchor_row, anchor_col)))
            cells := by
  intro cells
  induction cells with
  | nil => intro _; rfl
  | cons rc rest ih =>
    intro panel_index
    obtain ⟨a, b⟩ := rc
    simp only [assign_loop]
    by_cases hrc : a = anchor_row ∧ b = anchor_col
    · rw [if_pos hrc, List.countP_cons, List.countP_cons, ih]
      obtain ⟨h1, h2⟩ := hrc
      subst h1; subst h2
      simp
    · rw [if_neg hrc]
      have hne : decide (((a, b) : Nat × Nat) = (anchor_row, anchor_col))
          = false := by
        simp only [decide_eq_false_iff_not, ne_eq, Prod.mk.injEq]
        exact fun h => hrc h
      by_cases hpi : panel_index < num_panels
      · rw [if_pos hpi, List.countP_cons, List.countP_cons, ih]
        simp [hne]
        exact fun h1 h2 => hrc ⟨h1, h2⟩
      · rw [if_neg hpi, List.countP_cons, List.countP_cons, ih]
        simp [hne]
        exact fun h1 h2 => hrc ⟨h1, h2⟩

/-- The row-major grid walk visits each in-bounds coordinate pair exactly
once (it is the product of two duplicate-free ranges). -/
theorem grid_cells_count_one (rows cols ar ac : Nat)
    (hr : ar < rows) (hc : ac < cols) :
    List.countP (fun rc => decide (rc = (ar, ac))) (grid_cells rows cols)
      = 1 := by
  have hprod : grid_cells rows cols
      = (List.range rows).product (List.range cols) := rfl
  have hmem : (ar, ac) ∈ (List.range rows).product (List.range cols) :=
    List.mem_product.mpr ⟨List.mem_range.mpr hr, List.mem_range.mpr hc⟩
  have hnd : ((List.range rows).product (List.range cols)).Nodup :=
    (List.nodup_range rows).product (List.nodup_range cols)
  have hcount := List.count_eq_one_of_mem hnd hmem
  rw [hprod]
  exact hcount

/-- Claim C10: for every anchor position and every grid with
`rows, cols ≥ 1`, `get_anchor_grid_position` returns coordinates strictly
inside the grid, and `compose_collage`'s cell assignment gives the anchor
image to exactly one cell of the grid walk. -/
theorem anchor_cell_inside_grid_unique (anchor_position : AnchorPosition)
    (rows cols num_panels : Nat) (hr : 1 ≤ rows) (hc : 1 ≤ cols) :
    (get_anchor_grid_position anchor_position rows cols).1 < rows ∧
    (get_anchor_grid_position anchor_position rows cols).2 < cols ∧
    List.countP (fun e => decide (e.2 = CellContent.anchorCell))
        (assign_cells (get_anchor_grid_position anchor_position rows cols).1
          (get_anchor_grid_position anchor_position rows cols).2
          rows cols num_panels) = 1 := by
  have hb : (get_anchor_grid_position anchor_position rows cols).1 < rows ∧
      (get_anchor_grid_position anchor_position rows cols).2 < cols := by
    cases anchor_position <;> simp [get_anchor_grid_position] <;> omega
  refine ⟨hb.1, hb.2, ?_⟩
  unfold assign_cells
  rw [assign_loop_countP]
  exact grid_cells_count_one rows cols _ _ hb.1 hb.2

/-- Witness for C10 with the center anchor on the 2x2 grid and 3 panels. -/
theorem anchor_cell_inside_grid_unique_witness :
    (get_anchor_grid_position AnchorPosition.CENTER 2 2).1 < 2 ∧
    (get_anchor_grid_position AnchorPosition.CENTER 2 2).2 < 2 ∧
    List.countP (fun e => decide (e.2 = CellContent.anchorCell))
        (assign_cells (get_anchor_grid_position AnchorPosition.CENTER 2 2).1
          (get_anchor_grid_position AnchorPosition.CENTER 2 2).2
          2 2 3) = 1 :=
  anchor_cell_inside_grid_unique AnchorPosition.CENTER 2 2 3 (by decide)
    (by decide)

/-- Witness for C4's amended theorem with captions disabled on a concrete
80x60 cell image and the source's default configuration. -/
theorem anchor_caption_never_rendered_witness :
    (apply_caption_step (fun c => (c.length : Int))
      { layout_type := LayoutType.GRID_2X2,
        anchor_position := AnchorPosition.TOP_LEFT,
        padding := 4, border_width := 2,
        border_color := (255, 255, 255), background_color := (30, 30, 30),
        output_size := (1080, 1080), show_captions := false,
        caption_font_size := 14, caption_color := (255, 255, 255),
        caption_bg_opacity := 180 }
      ⟨80, 60, ImageData.source 1⟩
      (anchor_cell_caption
        (LayoutConfig.show_captions
          { layout_type := LayoutType.GRID_2X2,
            anchor_position := AnchorPosition.TOP_LEFT,
            padding := 4, border_width := 2,
            border_color := (255, 255, 255), background_color := (30, 30, 30),
            output_size := (1080, 1080), show_captions := false,
            caption_font_size := 14, caption_color := (255, 255, 255),
            caption_bg_opacity := 180 }))
      = ⟨80, 60, ImageData.source 1⟩) ∧
    (LayoutConfig.show_captions
        { layout_type := LayoutType.GRID_2X2,
          anchor_position := AnchorPosition.TOP_LEFT,
          padding := 4, border_width := 2,
          border_color := (255, 255, 255), background_color := (30, 30, 30),
          output_size := (1080, 1080), show_captions := false,
          caption_font_size := 14, caption_color := (255, 255, 255),
          caption_bg_opacity := 180 } = false →
      anchor_cell_caption
        (LayoutConfig.show_captions
          { layout_type := LayoutType.GRID_2X2,
            anchor_position := AnchorPosition.TOP_LEFT,
            padding := 4, border_width := 2,
            border_color := (255, 255, 255), background_color := (30, 30, 30),
            output_size := (1080, 1080), show_captions := false,
            caption_font_size := 14, caption_color := (255, 255, 255),
            caption_bg_opacity := 180 }) = []) :=
  anchor_caption_never_rendered (fun c => (c.length : Int))
    { layout_type := LayoutType.GRID_2X2,
      anchor_position := AnchorPosition.TOP_LEFT,
      padding := 4, border_width := 2,
      border_color := (255, 255, 255), background_color := (30, 30, 30),
      output_size := (1080, 1080), show_captions := false,
      caption_font_size := 14, caption_color := (255, 255, 255),
      caption_bg_opacity := 180 }
    ⟨80, 60, ImageData.source 1⟩
